import Mathlib

/-
Verification of the AI-Startup analytics application.

Part I embeds the frontend page handlers found under
frontend/src/pages (DataViewPage.tsx, ResetPasswordPage,
ActiveDatasetsPage) as executable Lean functions and proves their
functional properties.

Part II models the multi-stage analytics pipeline (orchestrator,
planning, exploration, SQL generation/validation, execution gateway,
visualization selection, insight synthesis).  The backend source
implementing that pipeline is not part of the checked-in sources
(only its documentation is), so those definitions are modelled from
the specification document and are marked as such.
-/

namespace AIA

/-! ### JavaScript value model

Rows coming back from the API are JSON objects; a row is an ordered
list of field/value pairs.  String coercion follows the JavaScript
String() conversion used by the frontend. -/

inductive JsValue where
  | str (s : String)
  | num (n : Int)
  | boolean (b : Bool)
  | nullV
deriving DecidableEq

/-- JavaScript String(val) conversion, as applied by the frontend
before substring matching. -/
def JsValue.jsString : JsValue → String
  | .str s => s
  | .num n => toString n
  | .boolean b => if b then "true" else "false"
  | .nullV => "null"

abbrev Row := List (String × JsValue)

/-- Character-list test that sub occurs at the start of hay. -/
def startsWithL : List Char → List Char → Bool
  | _, [] => true
  | [], _ :: _ => false
  | a :: as, b :: bs => a == b && startsWithL as bs

/-- Character-list substring test (JavaScript String.includes). -/
def hasInfixL : List Char → List Char → Bool
  | [], sub => sub.isEmpty
  | a :: t, sub => startsWithL (a :: t) sub || hasInfixL t sub

/-- JavaScript toLowerCase, lowered to a character map. -/
def lowerStr (s : String) : String :=
  String.mk (s.data.map Char.toLower)

/-- JavaScript s.includes(sub). -/
def jsIncludes (s sub : String) : Bool :=
  hasInfixL s.data sub.data

/-! ### DataViewPage: filteredData (frontend/src/pages/DataViewPage.tsx)

    const filteredData = dataset.sample_data?.filter((row) => {
        if (!searchQuery) return true;
        return Object.values(row).some(val =>
            String(val).toLowerCase().includes(searchQuery.toLowerCase())
        );
    }) || [];
-/

/-- Predicate applied to one row by the DataViewPage search filter:
some value of the row, converted by String(), contains the query
case-insensitively. -/
def rowMatches (searchQuery : String) (row : Row) : Bool :=
  (row.map Prod.snd).any fun v =>
    jsIncludes (lowerStr v.jsString) (lowerStr searchQuery)

/-- The filteredData computation of DataViewPage: an empty search query
keeps every row (the JavaScript truthiness test on the query string),
otherwise a row is kept when some value matches. -/
def filteredData (rows : List Row) (searchQuery : String) : List Row :=
  rows.filter fun row =>
    if searchQuery = "" then true else rowMatches searchQuery row

/-! ### ResetPasswordPage: handleSubmit (src/unnamed/part_001)

    setError('');
    if (newPassword !== confirmPassword) { setError('Passwords do not match'); return; }
    if (newPassword.length < 6) { setError('Password must be at least 6 characters'); return; }
    setLoading(true);
    try { await api.post('/auth/reset-password', ...); setSuccess(true); }
    catch (err) { setError(detail); } finally { setLoading(false); }
-/

structure ResetFormState where
  newPassword : String
  confirmPassword : String
  loading : Bool
  success : Bool
  error : String
deriving DecidableEq

inductive ApiOutcome where
  | ok
  | fail (detail : String)
deriving DecidableEq

def resetMismatchMsg : String := "Passwords do not match"

def resetTooShortMsg : String := "Password must be at least 6 characters"

/-- The ResetPasswordPage submit handler as a state transformer.  The
second component reports whether the reset-password request was sent.
The api argument is the outcome of the POST when it is sent. -/
def handleResetSubmit (st : ResetFormState) (api : ApiOutcome) :
    ResetFormState × Bool :=
  let st0 := { st with error := "" }
  if st0.newPassword ≠ st0.confirmPassword then
    ({ st0 with error := resetMismatchMsg }, false)
  else if st0.newPassword.length < 6 then
    ({ st0 with error := resetTooShortMsg }, false)
  else
    match api with
    | ApiOutcome.ok => ({ st0 with success := true, loading := false }, true)
    | ApiOutcome.fail d => ({ st0 with error := d, loading := false }, true)

/-! ### ActiveDatasetsPage: removeFromActive (src/unnamed/part_001)

    const updated = activeDatasetIds.filter(id => id !== datasetId);
    setActiveDatasetIds(updated);
    localStorage.setItem('activeDatasets', JSON.stringify(updated));
    setDatasets(prev => prev.filter(d => d.id !== datasetId));
-/

structure Dataset where
  id : Nat
  name : String
  row_count : Nat
deriving DecidableEq

/-- Page state of ActiveDatasetsPage; storedActiveIds is the parsed
content of the activeDatasets localStorage entry. -/
structure ActivePageState where
  activeDatasetIds : List Nat
  datasets : List Dataset
  storedActiveIds : List Nat
deriving DecidableEq

/-- The removeFromActive handler: drops the id from the component
state, persists the updated list, and drops the displayed entry. -/
def removeFromActive (datasetId : Nat) (st : ActivePageState) :
    ActivePageState :=
  let updated := st.activeDatasetIds.filter (fun i => i != datasetId)
  { activeDatasetIds := updated
    storedActiveIds := updated
    datasets := st.datasets.filter (fun d => d.id != datasetId) }

/-! ## Part II: the analytics pipeline

The backend pipeline (analytics_service_v3 and its stages) is not
present under the checked-in sources; everything below is modelled
from the specification document (sections 2 through 8). -/

/-- Modelled from the spec: inferred semantic type of a column
(the backend schema context builder is missing from the sources). -/
inductive SemType where
  | categorical
  | numeric
  | temporal
  | identifier
  | unknownType
deriving DecidableEq

/-- Modelled from the spec: per-column metadata of the SchemaContext
(the backend schema context builder is missing from the sources). -/
structure ColumnProfile where
  name : String
  semType : SemType
  distinctCount : Nat
deriving DecidableEq

/-- Modelled from the spec: SchemaContext, immutable per request
(the backend schema context builder is missing from the sources). -/
structure SchemaContext where
  tableName : String
  columns : List ColumnProfile
deriving DecidableEq

/-- Modelled from the spec: AnalysisPlan produced by the Planning
Stage (the backend planning stage is missing from the sources). -/
structure AnalysisPlan where
  understanding : String
  approach : String
  exploratory_questions : List String
deriving DecidableEq

/-- Modelled from the spec: ProviderError kinds of the model
capability (the backend provider clients are missing from the
sources). -/
inductive ProviderErrorKind where
  | timeout
  | auth
  | rate_limit
  | unavailable
deriving DecidableEq

/-- Modelled from the spec: a failed model-backed step, either a
provider failure or unparseable output (the backend provider clients
are missing from the sources). -/
inductive ModelFailure where
  | provider (k : ProviderErrorKind)
  | parseFail (msg : String)
deriving DecidableEq

/-- Modelled from the spec: ExecutionError kinds of the Execution
Gateway (the backend execution gateway is missing from the
sources). -/
inductive ExecErrorKind where
  | synErr
  | timeout
  | permission
  | unknownErr
deriving DecidableEq

/-- Modelled from the spec: ExecutionError of the Execution Gateway
(the backend execution gateway is missing from the sources). -/
structure ExecutionError where
  kind : ExecErrorKind
  message : String
deriving DecidableEq

/-- Modelled from the spec: one entry of the validation_errors set of
a CandidateQuery (the backend SQL validator is missing from the
sources). -/
structure ValidationIssue where
  kind : String
  message : String
deriving DecidableEq

/-- Modelled from the spec: CandidateQuery of the SQL Generation and
Validation Stage (the backend SQL stage is missing from the
sources). -/
structure CandidateQuery where
  sql : String
  attempt : Nat
  validation_errors : List ValidationIssue
  execution_outcome : Option (Except ExecutionError (List Row))

/-- Modelled from the spec: ExplorationStep of the Exploration Stage
(the backend exploration agent is missing from the sources). -/
structure ExplorationStep where
  question : String
  generated_sql : String
  execution_outcome : Except ExecutionError (List Row)
  findings : String

/-- Modelled from the spec: chart kind enumeration of a
VisualizationSpec (the backend visualization selector is missing from
the sources). -/
inductive ChartKind where
  | bar
  | line
  | pie
  | scatter
  | multiSeriesLine
  | table
deriving DecidableEq

/-- Modelled from the spec: VisualizationSpec with axis bindings
(the backend visualization selector is missing from the sources). -/
structure VizSpec where
  kind : ChartKind
  xField : String
  yField : String
deriving DecidableEq

/-- Modelled from the spec: structured Insight narrative (the backend
insight synthesis stage is missing from the sources). -/
structure Insight where
  summary : String
  key_findings : List String
  detailed_analysis : String
  recommendations : List String
deriving DecidableEq

/-- Modelled from the spec: the underlying dataset store behind the
Execution Gateway, as an oracle from SQL text to outcome together
with an access counter recording every interaction with the store
(the backend dataset store is missing from the sources). -/
structure Store where
  responses : List (String × Except ExecutionError (List Row))
  accessCount : Nat

/-- Uppercasing used for keyword and identifier comparison. -/
def upperStr (s : String) : String :=
  String.mk (s.data.map Char.toUpper)

/-- Characters separating SQL tokens. -/
def sqlSepChar (c : Char) : Bool :=
  c == ' ' || c == ',' || c == '(' || c == ')' || c == ';' ||
  c == '\n' || c == '\t' || c == '\r'

/-- Accumulating tokenizer over a character list. -/
def tokensAux (cur : List Char) : List Char → List String
  | [] => if cur.isEmpty then [] else [String.mk cur.reverse]
  | c :: rest =>
      if sqlSepChar c then
        if cur.isEmpty then tokensAux [] rest
        else String.mk cur.reverse :: tokensAux [] rest
      else tokensAux (c :: cur) rest

/-- Modelled from the spec: uppercased token list of a SQL statement,
used by the static validator and the read-only check (the backend
query validator service is missing from the sources). -/
def sqlTokens (sql : String) : List String :=
  tokensAux [] (upperStr sql).data

/-- Modelled from the spec: data-mutating and schema-mutating
keywords rejected by validation and by the read-only gateway (the
backend query validator service is missing from the sources). -/
def mutatingKeywords : List String :=
  ["INSERT", "UPDATE", "DELETE", "DROP", "ALTER", "CREATE",
   "TRUNCATE", "REPLACE", "GRANT", "REVOKE", "MERGE", "ATTACH",
   "PRAGMA", "VACUUM"]

/-- Modelled from the spec: a statement is a read-only query when it
is non-empty and mentions no mutating keyword (the backend execution
gateway is missing from the sources). -/
def isReadQuery (sql : String) : Bool :=
  let toks := sqlTokens sql
  !toks.isEmpty && toks.all (fun t => !(mutatingKeywords.contains t))

/-- Modelled from the spec: raw store lookup; every call counts as an
interaction with the underlying store (the backend dataset store is
missing from the sources). -/
def Store.runQuery (store : Store) (sql : String) :
    Except ExecutionError (List Row) × Store :=
  let store2 := { store with accessCount := store.accessCount + 1 }
  match store.responses.find? (fun p => p.1 == sql) with
  | some p => (p.2, store2)
  | none => (Except.error ⟨ExecErrorKind.synErr, "no such statement"⟩, store2)

/-- Modelled from the spec: result of the Execution Gateway with the
truncation marker (the backend execution gateway is missing from the
sources). -/
structure ExecResult where
  rows : List Row
  truncated : Bool

/-- Modelled from the spec: the Execution Gateway execute operation.
A non-read statement fails fast with a permission error without
reaching the underlying store; results are capped at the row limit
(the backend execution gateway is missing from the sources). -/
def execute (rowLimit : Nat) (store : Store) (sql : String) :
    Except ExecutionError ExecResult × Store :=
  if isReadQuery sql then
    match store.runQuery sql with
    | (Except.ok rows, st2) =>
        (Except.ok ⟨rows.take rowLimit, decide (rowLimit < rows.length)⟩, st2)
    | (Except.error e, st2) => (Except.error e, st2)
  else
    (Except.error ⟨ExecErrorKind.permission, "read-only gateway: statement rejected"⟩,
     store)

/-- Modelled from the spec: deterministic stub of the model
capability, one field per model-backed call site (the backend
provider clients are missing from the sources). -/
structure ModelStub where
  planResp : Except ModelFailure AnalysisPlan
  probeResp : String → Except ModelFailure String
  genResp : Nat → Except ModelFailure String
  vizResp : Except ModelFailure (List VizSpec)
  insightResp : List Row → Except ModelFailure Insight

/-- Modelled from the spec: the default AnalysisPlan echoing the raw
user query as understanding with no exploratory questions (the
backend planning stage is missing from the sources). -/
def defaultPlan (q : String) : AnalysisPlan :=
  ⟨q, "", []⟩

/-- Modelled from the spec: the Planning Stage; on model failure it
returns the default plan instead of raising, and exploratory
questions are capped at 3 (the backend planning stage is missing
from the sources). -/
def planningStage (stub : ModelStub) (q : String) : AnalysisPlan :=
  match stub.planResp with
  | Except.ok p => { p with exploratory_questions := p.exploratory_questions.take 3 }
  | Except.error _ => defaultPlan q

/-- Modelled from the spec: deterministic templated summary of a
probe outcome (the backend exploration agent is missing from the
sources). -/
def summarizeRows (rows : List Row) : String :=
  "row count " ++ toString rows.length

/-- Modelled from the spec: one exploratory probe; any failure is
recorded as a step with an error outcome and never aborts the stage
(the backend exploration agent is missing from the sources). -/
def exploreOne (stub : ModelStub) (rowLimit : Nat) (store : Store)
    (q : String) : ExplorationStep × Store :=
  match stub.probeResp q with
  | Except.error _ =>
      (⟨q, "", Except.error ⟨ExecErrorKind.unknownErr, "probe generation failed"⟩,
        "probe generation failed"⟩, store)
  | Except.ok sql =>
      match execute rowLimit store sql with
      | (Except.ok res, st2) => (⟨q, sql, Except.ok res.rows, summarizeRows res.rows⟩, st2)
      | (Except.error e, st2) => (⟨q, sql, Except.error e, "probe failed: " ++ e.message⟩, st2)

/-- Modelled from the spec: the Exploration Stage over the plan's
exploratory questions (the backend exploration agent is missing from
the sources). -/
def explorationStage (stub : ModelStub) (rowLimit : Nat) (store : Store) :
    List String → List ExplorationStep × Store
  | [] => ([], store)
  | q :: qs =>
      let r1 := exploreOne stub rowLimit store q
      let r2 := explorationStage stub rowLimit r1.2 qs
      (r1.1 :: r2.1, r2.2)

/-- Modelled from the spec: SQL keywords that are not identifier
references (the backend query validator service is missing from the
sources). -/
def sqlKeywords : List String :=
  ["SELECT", "FROM", "WHERE", "GROUP", "BY", "ORDER", "LIMIT",
   "OFFSET", "AS", "SUM", "COUNT", "AVG", "MIN", "MAX", "AND", "OR",
   "NOT", "NULL", "ON", "JOIN", "INNER", "LEFT", "RIGHT", "OUTER",
   "DESC", "ASC", "WITH", "HAVING", "DISTINCT", "CASE", "WHEN",
   "THEN", "ELSE", "END", "IN", "BETWEEN", "LIKE", "IS", "CAST",
   "ROUND", "UNION", "ALL"]

/-- Modelled from the spec: a token that looks like an identifier
reference subject to the schema check (the backend query validator
service is missing from the sources). -/
def isIdentTok (t : String) : Bool :=
  !t.data.isEmpty && t.data.all (fun c => c.isAlpha || c == '_') &&
  !(sqlKeywords.contains t)

/-- Modelled from the spec: the names known to the SchemaContext
(the backend query validator service is missing from the sources). -/
def knownNames (ctx : SchemaContext) : List String :=
  upperStr ctx.tableName :: ctx.columns.map (fun c => upperStr c.name)

/-- Modelled from the spec: identifier tokens absent from the
SchemaContext (the backend query validator service is missing from
the sources). -/
def unknownRefs (ctx : SchemaContext) (sql : String) : List String :=
  (sqlTokens sql).filter (fun t => isIdentTok t && !((knownNames ctx).contains t))

/-- Modelled from the spec: static VALIDATE step, rejecting empty
output, mutating keywords, and unknown schema references without
executing anything (the backend query validator service is missing
from the sources). -/
def validate (ctx : SchemaContext) (sql : String) : List ValidationIssue :=
  (if (sqlTokens sql).isEmpty then [⟨"empty", "empty SQL output"⟩] else []) ++
  (if (sqlTokens sql).any (fun t => mutatingKeywords.contains t) then
     [⟨"mutation", "only read queries are permitted"⟩] else []) ++
  (unknownRefs ctx sql).map (fun t => ⟨"unknown_reference", t⟩)

/-- Modelled from the spec: terminal state of the SQL Generation and
Validation Stage, accepted or exhausted (the backend SQL stage is
missing from the sources). -/
inductive SqlStageResult where
  | accepted (cand : CandidateQuery) (rows : List Row)
  | exhausted (history : List CandidateQuery)

/-- Modelled from the spec: the SQL text of the attempt-indexed
GENERATE or CORRECT model call; a failed call yields empty output,
which validation rejects (the backend SQL stage is missing from the
sources). -/
def genSqlText (stub : ModelStub) (attempt : Nat) : String :=
  match stub.genResp attempt with
  | Except.ok s => s
  | Except.error _ => ""

/-- Modelled from the spec: the GENERATE/VALIDATE/EXECUTE/CORRECT
loop; each iteration produces one CandidateQuery with the next
attempt number, and the fuel is the remaining attempt budget (the
backend SQL stage is missing from the sources). -/
def sqlLoop (stub : ModelStub) (ctx : SchemaContext) (rowLimit : Nat) :
    Nat → Nat → Store → List CandidateQuery → SqlStageResult × Store
  | 0, _, store, hist => (SqlStageResult.exhausted hist.reverse, store)
  | n + 1, attempt, store, hist =>
      let sql := genSqlText stub attempt
      let verrs := validate ctx sql
      if verrs.isEmpty then
        match execute rowLimit store sql with
        | (Except.ok res, st2) =>
            (SqlStageResult.accepted ⟨sql, attempt, [], some (Except.ok res.rows)⟩ res.rows,
             st2)
        | (Except.error e, st2) =>
            sqlLoop stub ctx rowLimit n (attempt + 1) st2
              (⟨sql, attempt, [], some (Except.error e)⟩ :: hist)
      else
        sqlLoop stub ctx rowLimit n (attempt + 1) store
          (⟨sql, attempt, verrs, none⟩ :: hist)

/-- Modelled from the spec: externally injected pipeline
configuration (the backend configuration surface is missing from the
sources). -/
structure PipelineConfig where
  maxAttempts : Nat
  maxExploratory : Nat
  rowLimit : Nat

/-- Modelled from the spec: design defaults, in particular the
maximum of 3 SQL generation attempts (the backend configuration
surface is missing from the sources). -/
def defaultConfig : PipelineConfig := ⟨3, 3, 50⟩

/-- Modelled from the spec: entry point of the SQL Generation and
Validation Stage, starting at attempt 1 with the full budget (the
backend SQL stage is missing from the sources). -/
def sqlStage (cfg : PipelineConfig) (stub : ModelStub) (ctx : SchemaContext)
    (store : Store) : SqlStageResult × Store :=
  sqlLoop stub ctx cfg.rowLimit cfg.maxAttempts 1 store []

/-- Modelled from the spec: deterministic-first chart kind selection
by result shape (the backend visualization selector is missing from
the sources). -/
def selectVizByShape (cols : List ColumnProfile) : Option VizSpec :=
  match cols with
  | [c1, c2] =>
      match c1.semType, c2.semType with
      | SemType.categorical, SemType.numeric =>
          if c1.distinctCount ≤ 5 then some ⟨ChartKind.pie, c1.name, c2.name⟩
          else some ⟨ChartKind.bar, c1.name, c2.name⟩
      | SemType.temporal, SemType.numeric => some ⟨ChartKind.line, c1.name, c2.name⟩
      | SemType.numeric, SemType.numeric => some ⟨ChartKind.scatter, c1.name, c2.name⟩
      | _, _ => none
  | _ => none

/-- Modelled from the spec: column profiles of the accepted result
set, read off the first row (the backend visualization selector is
missing from the sources). -/
def resultColumns (ctx : SchemaContext) (rows : List Row) : List ColumnProfile :=
  match rows with
  | [] => []
  | r :: _ => (r.map Prod.fst).filterMap (fun n => ctx.columns.find? (fun c => c.name == n))

/-- Modelled from the spec: the Visualization Selection Stage;
deterministic shape selection first, model fallback when ambiguous,
capped at 3 specs (the backend visualization selector is missing
from the sources). -/
def vizStage (stub : ModelStub) (cols : List ColumnProfile) : List VizSpec :=
  match selectVizByShape cols with
  | some spec => [spec]
  | none =>
      match stub.vizResp with
      | Except.ok specs => specs.take 3
      | Except.error _ => []

/-- Modelled from the spec: the input signal to Insight Synthesis, a
result set or an explicit no-rows or no-query signal (the backend
insight synthesis stage is missing from the sources). -/
inductive InsightSignal where
  | resultRows (rows : List Row)
  | noMatchingRows
  | noQuerySucceeded

/-- Modelled from the spec: the insight produced on the explicit
no-matching-rows signal, acknowledging the absence instead of
fabricating numbers (the backend insight synthesis stage is missing
from the sources). -/
def noRowsInsight : Insight :=
  ⟨"No matching rows were found.", [],
   "The accepted query executed successfully but returned zero rows.", []⟩

/-- Modelled from the spec: the insight produced when no query
succeeded (the backend insight synthesis stage is missing from the
sources). -/
def noQueryInsight : Insight :=
  ⟨"No query could be executed.", [],
   "Every SQL generation attempt failed; no data was retrieved.", []⟩

/-- Modelled from the spec: degraded default insight after a model
failure (the backend insight synthesis stage is missing from the
sources). -/
def degradedInsight : Insight :=
  ⟨"Analysis unavailable.", [], "", []⟩

/-- Modelled from the spec: the Insight Synthesis Stage; failures are
absorbed into a degraded default, and the explicit signals are
answered deterministically (the backend insight synthesis stage is
missing from the sources). -/
def insightStage (stub : ModelStub) : InsightSignal → Insight
  | InsightSignal.noMatchingRows => noRowsInsight
  | InsightSignal.noQuerySucceeded => noQueryInsight
  | InsightSignal.resultRows rows =>
      match stub.insightResp rows with
      | Except.ok ins => ins
      | Except.error _ => degradedInsight

/-- Modelled from the spec: terminal run status (the backend
orchestrator is missing from the sources). -/
inductive RunStatus where
  | success
  | partialStatus
  | failed
deriving DecidableEq

/-- Modelled from the spec: whether a stub outcome is a provider
failure (the backend provider clients are missing from the
sources). -/
def isProviderFail {α : Type} : Except ModelFailure α → Bool
  | Except.error (ModelFailure.provider _) => true
  | _ => false

/-- Modelled from the spec: total provider unavailability across the
pipeline, which downgrades the run status to failed (the backend
orchestrator is missing from the sources). -/
def totalProviderFailure (cfg : PipelineConfig) (stub : ModelStub) : Bool :=
  isProviderFail stub.planResp &&
  (List.range cfg.maxAttempts).all (fun i => isProviderFail (stub.genResp (i + 1)))

/-- Modelled from the spec: the response payload assembled by the
orchestrator (the backend response formatter is missing from the
sources). -/
structure ResponsePayload where
  natural_language_query : String
  generated_sql : Option String
  result_data : Option (List Row)
  visualization_specs : List VizSpec
  insights : Option Insight
  analysis_plan : Option AnalysisPlan
  exploration_trail : Option (List ExplorationStep)
  status : RunStatus

/-- Modelled from the spec: the exploration trail and post-probe
store of a run (the backend orchestrator is missing from the
sources). -/
def pipelineTrail (cfg : PipelineConfig) (stub : ModelStub) (q : String)
    (store : Store) : List ExplorationStep × Store :=
  explorationStage stub cfg.rowLimit store
    ((planningStage stub q).exploratory_questions.take cfg.maxExploratory)

/-- Modelled from the spec: the Pipeline Orchestrator; it sequences
the stages, skips visualization on empty or absent results, sends the
explicit insight signals, and always assembles a status-tagged
payload (the backend analytics_service_v3 orchestrator is missing
from the sources). -/
def runPipeline (cfg : PipelineConfig) (stub : ModelStub) (q : String)
    (ctx : SchemaContext) (store : Store) : ResponsePayload :=
  let plan := planningStage stub q
  let tr := pipelineTrail cfg stub q store
  match sqlStage cfg stub ctx tr.2 with
  | (SqlStageResult.accepted cand rows, _) =>
      if rows.isEmpty then
        ⟨q, some cand.sql, some rows, [],
         some (insightStage stub InsightSignal.noMatchingRows),
         some plan, some tr.1, RunStatus.success⟩
      else
        ⟨q, some cand.sql, some rows,
         vizStage stub (resultColumns ctx rows),
         some (insightStage stub (InsightSignal.resultRows rows)),
         some plan, some tr.1, RunStatus.success⟩
  | (SqlStageResult.exhausted _, _) =>
      ⟨q, none, none, [],
       some (insightStage stub InsightSignal.noQuerySucceeded),
       some plan, some tr.1,
       if totalProviderFailure cfg stub then RunStatus.failed
       else RunStatus.partialStatus⟩

/-! ### Frontend chart render condition

DataViewPage.tsx (embedded AnalyticsPage, around line 370) renders
the ChartRenderer under the condition
message.content.visualization && message.content.result_data. -/

/-- Assistant message content assembled by the AnalyticsPage
handleSubmit from the response payload. -/
structure AssistantContent where
  text : Option String
  generated_sql : Option String
  result_data : Option (List Row)
  visualization : Option VizSpec

/-- Mapping of a response payload into the assistant message content
shown by AnalyticsPage. -/
def toAssistantContent (p : ResponsePayload) : AssistantContent :=
  ⟨none, p.generated_sql, p.result_data, p.visualization_specs.head?⟩

/-- JavaScript truthiness of an optional array field: an absent field
is falsy, any array (even the empty one) is truthy. -/
def jsTruthyArr (o : Option (List Row)) : Bool :=
  match o with
  | none => false
  | some _ => true

/-- The ChartRenderer render condition of the AnalyticsPage embedded
in DataViewPage.tsx. -/
def chartRendered (c : AssistantContent) : Bool :=
  c.visualization.isSome && jsTruthyArr c.result_data

/-! ## Theorems: frontend claims -/

/-- Claim C8: in the data-view table filter, for every loaded dataset
and search query, a row is included in the displayed filtered data iff
the query is empty or at least one of the row's values, converted to a
string, contains the query case-insensitively; an empty query displays
every loaded row unchanged and in order. -/
theorem filteredData_spec :
    (∀ (rows : List Row) (q : String) (row : Row),
      row ∈ filteredData rows q ↔
        row ∈ rows ∧ (q = "" ∨ rowMatches q row = true)) ∧
    (∀ rows : List Row, filteredData rows "" = rows) := by
  constructor
  · intro rows q row
    by_cases h : q = "" <;> simp [filteredData, List.mem_filter, h]
  · intro rows
    simp [filteredData]

/-- Claim C9: the reset-password request is sent iff the new password
equals the confirmation and has length at least 6; when either check
fails the handler sets an error message and returns without sending,
leaving the success and loading state unchanged. -/
theorem handleResetSubmit_spec (st : ResetFormState) (api : ApiOutcome) :
    ((handleResetSubmit st api).2 = true ↔
      (st.newPassword = st.confirmPassword ∧ 6 ≤ st.newPassword.length)) ∧
    ((st.newPassword ≠ st.confirmPassword ∨ st.newPassword.length < 6) →
      (handleResetSubmit st api).2 = false ∧
      (handleResetSubmit st api).1.success = st.success ∧
      (handleResetSubmit st api).1.loading = st.loading ∧
      ((handleResetSubmit st api).1.error = resetMismatchMsg ∨
       (handleResetSubmit st api).1.error = resetTooShortMsg)) := by
  by_cases h1 : st.newPassword = st.confirmPassword
  · by_cases h2 : st.newPassword.length < 6
    · have h2a : st.confirmPassword.length < 6 := h1 ▸ h2
      constructor
      · simp [handleResetSubmit, h1, h2a, Nat.not_le.mpr h2a]
      · intro _
        simp [handleResetSubmit, h1, h2a]
    · have h2a : ¬ st.confirmPassword.length < 6 := h1 ▸ h2
      constructor
      · cases api <;> simp [handleResetSubmit, h1, h2a, Nat.not_lt.mp h2a]
      · intro hbad
        rcases hbad with hbad | hbad
        · exact absurd h1 hbad
        · exact absurd hbad h2
  · constructor
    · simp [handleResetSubmit, h1]
    · intro _
      simp [handleResetSubmit, h1]

def resetStW : ResetFormState := ⟨"abc", "abd", false, false, ""⟩

/-- Concrete instance of the C9 theorem: mismatching passwords send no
request and leave success and loading untouched. -/
theorem handleResetSubmit_spec_witness :
    (handleResetSubmit resetStW ApiOutcome.ok).2 = false ∧
    (handleResetSubmit resetStW ApiOutcome.ok).1.success = resetStW.success ∧
    (handleResetSubmit resetStW ApiOutcome.ok).1.loading = resetStW.loading ∧
    ((handleResetSubmit resetStW ApiOutcome.ok).1.error = resetMismatchMsg ∨
     (handleResetSubmit resetStW ApiOutcome.ok).1.error = resetTooShortMsg) :=
  (handleResetSubmit_spec resetStW ApiOutcome.ok).2 (Or.inl (by decide))

/-- Claim C10: after removeFromActive, the removed id is absent from
the stored active-id list and from the displayed dataset list, the
persisted activeDatasets entry equals the updated id list, and every
other dataset id and its displayed entry are unchanged (the remaining
lists are sublists of the originals, so order is preserved). -/
theorem removeFromActive_spec (datasetId : Nat) (st : ActivePageState) :
    datasetId ∉ (removeFromActive datasetId st).activeDatasetIds ∧
    (∀ d ∈ (removeFromActive datasetId st).datasets, d.id ≠ datasetId) ∧
    (removeFromActive datasetId st).storedActiveIds =
      (removeFromActive datasetId st).activeDatasetIds ∧
    (∀ j : Nat, j ≠ datasetId →
      (j ∈ (removeFromActive datasetId st).activeDatasetIds ↔
       j ∈ st.activeDatasetIds)) ∧
    (∀ d : Dataset, d.id ≠ datasetId →
      (d ∈ (removeFromActive datasetId st).datasets ↔ d ∈ st.datasets)) ∧
    List.Sublist (removeFromActive datasetId st).activeDatasetIds
      st.activeDatasetIds ∧
    List.Sublist (removeFromActive datasetId st).datasets st.datasets := by
  refine ⟨?_, ?_, rfl, ?_, ?_, ?_, ?_⟩
  · simp [removeFromActive, List.mem_filter]
  · intro d hd
    simp only [removeFromActive, List.mem_filter, bne_iff_ne, ne_eq] at hd
    exact hd.2
  · intro j hj
    simp [removeFromActive, List.mem_filter, hj]
  · intro d hd
    simp [removeFromActive, List.mem_filter, hd]
  · exact List.filter_sublist _
  · exact List.filter_sublist _

def activeStW : ActivePageState :=
  ⟨[1, 2, 3], [⟨1, "a", 10⟩, ⟨2, "b", 20⟩, ⟨3, "c", 30⟩], [1, 2, 3]⟩

/-- Concrete instance of the C10 theorem: removing id 2 drops it
everywhere, persists the updated list, and keeps id 1. -/
theorem removeFromActive_spec_witness :
    2 ∉ (removeFromActive 2 activeStW).activeDatasetIds ∧
    (removeFromActive 2 activeStW).storedActiveIds =
      (removeFromActive 2 activeStW).activeDatasetIds ∧
    (1 ∈ (removeFromActive 2 activeStW).activeDatasetIds ↔
     1 ∈ activeStW.activeDatasetIds) := by
  have h := removeFromActive_spec 2 activeStW
  exact ⟨h.1, h.2.2.1, h.2.2.2.1 1 (by decide)⟩

/-! ## Theorems: pipeline claims -/

/-- Every branch of the orchestrator fills the plan, trail, and
insight fields of the payload. -/
theorem runPipeline_fields (cfg : PipelineConfig) (stub : ModelStub) (q : String)
    (ctx : SchemaContext) (store : Store) :
    (runPipeline cfg stub q ctx store).analysis_plan = some (planningStage stub q) ∧
    (runPipeline cfg stub q ctx store).exploration_trail =
      some (pipelineTrail cfg stub q store).1 ∧
    (runPipeline cfg stub q ctx store).insights.isSome = true := by
  simp only [runPipeline]
  rcases hs : sqlStage cfg stub ctx (pipelineTrail cfg stub q store).2 with ⟨res, st2⟩
  cases res with
  | accepted cand rows => cases rows <;> simp
  | exhausted hist => simp

/-- Claim C1: for every request, the response payload contains a
non-null analysis_plan and a non-null exploration_trail, no matter
which model-backed stages failed during the run. -/
theorem runPipeline_completePayload (cfg : PipelineConfig) (stub : ModelStub)
    (q : String) (ctx : SchemaContext) (store : Store) :
    (runPipeline cfg stub q ctx store).analysis_plan.isSome = true ∧
    (runPipeline cfg stub q ctx store).exploration_trail.isSome = true := by
  have h := runPipeline_fields cfg stub q ctx store
  exact ⟨by rw [h.1]; rfl, by rw [h.2.1]; rfl⟩

/-- Every attempt number in a SQL stage result is below the bound. -/
def resultAttemptsLt (r : SqlStageResult) (m : Nat) : Prop :=
  match r with
  | SqlStageResult.accepted cand _ => cand.attempt < m
  | SqlStageResult.exhausted h => ∀ c ∈ h, c.attempt < m

/-- Attempt numbers produced by the SQL loop stay below the starting
attempt number plus the remaining budget. -/
theorem sqlLoop_attempt_lt (stub : ModelStub) (ctx : SchemaContext)
    (rowLimit : Nat) :
    ∀ (n attempt : Nat) (store : Store) (hist : List CandidateQuery),
      (∀ c ∈ hist, c.attempt < attempt) →
      resultAttemptsLt (sqlLoop stub ctx rowLimit n attempt store hist).1
        (attempt + n) := by
  intro n
  induction n with
  | zero =>
      intro attempt store hist hh
      simp only [sqlLoop, resultAttemptsLt]
      intro c hc
      rw [List.mem_reverse] at hc
      have := hh c hc
      omega
  | succ n ih =>
      intro attempt store hist hh
      simp only [sqlLoop]
      by_cases hv : (validate ctx (genSqlText stub attempt)).isEmpty = true
      · rw [if_pos hv]
        rcases hx : execute rowLimit store (genSqlText stub attempt) with ⟨r, st2⟩
        cases r with
        | ok res =>
            show attempt < attempt + (n + 1)
            omega
        | error e =>
            have hh2 : ∀ c ∈ (CandidateQuery.mk (genSqlText stub attempt) attempt []
                (some (Except.error e)) :: hist), c.attempt < attempt + 1 := by
              intro c hc
              rcases List.mem_cons.mp hc with hc | hc
              · subst hc; exact Nat.lt_succ_self attempt
              · have := hh c hc; omega
            have hrec := ih (attempt + 1) st2 _ hh2
            have heq : attempt + 1 + n = attempt + (n + 1) := by omega
            rw [heq] at hrec
            exact hrec
      · rw [if_neg hv]
        have hh2 : ∀ c ∈ (CandidateQuery.mk (genSqlText stub attempt) attempt
            (validate ctx (genSqlText stub attempt)) none :: hist),
            c.attempt < attempt + 1 := by
          intro c hc
          rcases List.mem_cons.mp hc with hc | hc
          · subst hc; exact Nat.lt_succ_self attempt
          · have := hh c hc; omega
        have hrec := ih (attempt + 1) store _ hh2
        have heq : attempt + 1 + n = attempt + (n + 1) := by omega
        rw [heq] at hrec
        exact hrec

/-- When the SQL loop exhausts its budget, the history holds exactly
one candidate per remaining attempt. -/
theorem sqlLoop_exhausted_length (stub : ModelStub) (ctx : SchemaContext)
    (rowLimit : Nat) :
    ∀ (n attempt : Nat) (store : Store) (hist h' : List CandidateQuery),
      (sqlLoop stub ctx rowLimit n attempt store hist).1 =
        SqlStageResult.exhausted h' →
      h'.length = hist.length + n := by
  intro n
  induction n with
  | zero =>
      intro attempt store hist h' he
      simp only [sqlLoop] at he
      injection he with he2
      rw [← he2]
      simp
  | succ n ih =>
      intro attempt store hist h' he
      simp only [sqlLoop] at he
      by_cases hv : (validate ctx (genSqlText stub attempt)).isEmpty = true
      · rw [if_pos hv] at he
        rcases hx : execute rowLimit store (genSqlText stub attempt) with ⟨r, st2⟩
        rw [hx] at he
        cases r with
        | ok res => exact absurd he (by simp)
        | error e =>
            have := ih (attempt + 1) st2 _ h' he
            simp only [List.length_cons] at this
            omega
      · rw [if_neg hv] at he
        have := ih (attempt + 1) store _ h' he
        simp only [List.length_cons] at this
        omega

/-- Number of generation attempts a SQL stage outcome used. -/
def attemptsUsed : SqlStageResult → Nat
  | SqlStageResult.accepted cand _ => cand.attempt
  | SqlStageResult.exhausted h => h.length

/-- Claim C2: the number of SQL generation attempts never exceeds the
configured maximum, whose default is 3, and exhausting the budget
without success terminates the stage as exhausted after exactly the
maximum number of candidates. -/
theorem sqlStage_attempts_bounded (cfg : PipelineConfig) (stub : ModelStub)
    (ctx : SchemaContext) (store : Store) :
    attemptsUsed (sqlStage cfg stub ctx store).1 ≤ cfg.maxAttempts ∧
    (∀ h' : List CandidateQuery,
      (sqlStage cfg stub ctx store).1 = SqlStageResult.exhausted h' →
      h'.length = cfg.maxAttempts) ∧
    defaultConfig.maxAttempts = 3 := by
  refine ⟨?_, ?_, rfl⟩
  · have hb := sqlLoop_attempt_lt stub ctx cfg.rowLimit cfg.maxAttempts 1 store []
      (by simp)
    unfold sqlStage
    rcases hr : (sqlLoop stub ctx cfg.rowLimit cfg.maxAttempts 1 store []).1 with
      ⟨cand, rows⟩ | h'
    · rw [hr] at hb
      simp only [resultAttemptsLt] at hb
      simp only [attemptsUsed]
      omega
    · have hl := sqlLoop_exhausted_length stub ctx cfg.rowLimit cfg.maxAttempts 1
        store [] h' hr
      simp only [attemptsUsed, hl]
      simp
  · intro h' he
    unfold sqlStage at he
    have := sqlLoop_exhausted_length stub ctx cfg.rowLimit cfg.maxAttempts 1
      store [] h' he
    simpa using this

/-- Claim C3: visualization specs exist only when the accepted query
executed successfully and returned at least one row; on an empty or
absent result no spec is produced, and the frontend chart render
condition cannot fire on a payload whose result set is empty or
absent. -/
theorem vizOnlyOnRows (cfg : PipelineConfig) (stub : ModelStub) (q : String)
    (ctx : SchemaContext) (store : Store) :
    ((runPipeline cfg stub q ctx store).visualization_specs ≠ [] →
      ∃ rows : List Row, rows ≠ [] ∧
        (runPipeline cfg stub q ctx store).result_data = some rows ∧
        (runPipeline cfg stub q ctx store).status = RunStatus.success ∧
        (runPipeline cfg stub q ctx store).generated_sql.isSome = true) ∧
    (((runPipeline cfg stub q ctx store).result_data = some [] ∨
      (runPipeline cfg stub q ctx store).result_data = none) →
      (runPipeline cfg stub q ctx store).visualization_specs = []) ∧
    (chartRendered (toAssistantContent (runPipeline cfg stub q ctx store)) = true →
      ∃ rows : List Row, rows ≠ [] ∧
        (runPipeline cfg stub q ctx store).result_data = some rows) := by
  simp only [runPipeline]
  rcases hs : sqlStage cfg stub ctx (pipelineTrail cfg stub q store).2 with ⟨res, st2⟩
  cases res with
  | accepted cand rows =>
      cases rows with
      | nil => simp [chartRendered, toAssistantContent]
      | cons r rest =>
          refine ⟨?_, ?_, ?_⟩
          · intro _
            exact ⟨r :: rest, by simp, rfl, rfl, rfl⟩
          · intro hempty
            rcases hempty with hempty | hempty <;> simp at hempty
          · intro _
            exact ⟨r :: rest, by simp, rfl⟩
  | exhausted hist =>
      simp [chartRendered, toAssistantContent, jsTruthyArr]

/-- Claim C4: executing a statement that is not a read-only query
fails with a permission ExecutionError before any interaction with
the underlying store, and the store state is unchanged. -/
theorem execute_readOnly (rowLimit : Nat) (store : Store) (sql : String)
    (h : isReadQuery sql = false) :
    (execute rowLimit store sql).2 = store ∧
    (execute rowLimit store sql).2.accessCount = store.accessCount ∧
    ∃ e : ExecutionError, (execute rowLimit store sql).1 = Except.error e ∧
      e.kind = ExecErrorKind.permission := by
  simp only [execute, h]
  exact ⟨rfl, rfl, ⟨_, rfl, rfl⟩⟩

/-- Claim C5: when the planning model call fails, the stage returns
(does not raise) the default AnalysisPlan echoing the raw user query
with no exploratory questions, and the pipeline continues: the run
still assembles a payload carrying that plan and an insight. -/
theorem planningStage_default (stub : ModelStub) (q : String)
    (e : ModelFailure) (h : stub.planResp = Except.error e) :
    planningStage stub q = defaultPlan q ∧
    (defaultPlan q).understanding = q ∧
    (defaultPlan q).exploratory_questions = [] ∧
    ∀ (cfg : PipelineConfig) (ctx : SchemaContext) (store : Store),
      (runPipeline cfg stub q ctx store).analysis_plan = some (defaultPlan q) ∧
      (runPipeline cfg stub q ctx store).insights.isSome = true := by
  have hp : planningStage stub q = defaultPlan q := by
    simp [planningStage, h]
  refine ⟨hp, rfl, rfl, ?_⟩
  intro cfg ctx store
  have hf := runPipeline_fields cfg stub q ctx store
  exact ⟨by rw [hf.1, hp], hf.2.2⟩

/-- Claim C6: a run whose accepted query executes without error and
returns zero rows ends with status success, empty result_data, no
visualization specs, and Insight Synthesis receives the explicit
no-matching-rows signal, yielding the insight that states no rows
matched. -/
theorem emptyResult_success (cfg : PipelineConfig) (stub : ModelStub)
    (q : String) (ctx : SchemaContext) (store : Store) (cand : CandidateQuery)
    (h : (sqlStage cfg stub ctx (pipelineTrail cfg stub q store).2).1 =
      SqlStageResult.accepted cand []) :
    (runPipeline cfg stub q ctx store).status = RunStatus.success ∧
    (runPipeline cfg stub q ctx store).result_data = some [] ∧
    (runPipeline cfg stub q ctx store).visualization_specs = [] ∧
    (runPipeline cfg stub q ctx store).insights =
      some (insightStage stub InsightSignal.noMatchingRows) ∧
    insightStage stub InsightSignal.noMatchingRows = noRowsInsight ∧
    noRowsInsight.summary = "No matching rows were found." := by
  simp only [runPipeline]
  rcases hs : sqlStage cfg stub ctx (pipelineTrail cfg stub q store).2 with ⟨res, st2⟩
  rw [hs] at h
  simp only at h
  rw [h]
  simp [insightStage, noRowsInsight]

/-- Claim C7: two runs given the same user query, schema, store, and
deterministic stub model responses produce the same accepted SQL text
and the same visualization kind selection. -/
theorem runPipeline_idempotent (cfg : PipelineConfig)
    (stub1 stub2 : ModelStub) (q1 q2 : String) (ctx1 ctx2 : SchemaContext)
    (store1 store2 : Store) (hstub : stub1 = stub2) (hq : q1 = q2)
    (hctx : ctx1 = ctx2) (hstore : store1 = store2) :
    (runPipeline cfg stub1 q1 ctx1 store1).generated_sql =
      (runPipeline cfg stub2 q2 ctx2 store2).generated_sql ∧
    (runPipeline cfg stub1 q1 ctx1 store1).visualization_specs.map VizSpec.kind =
      (runPipeline cfg stub2 q2 ctx2 store2).visualization_specs.map VizSpec.kind := by
  subst hstub
  subst hq
  subst hctx
  subst hstore
  exact ⟨rfl, rfl⟩

/-! ### Concrete witness data -/

def ctxW : SchemaContext :=
  ⟨"sales", [⟨"quarter", SemType.categorical, 4⟩, ⟨"revenue", SemType.numeric, 40⟩]⟩

def goodSql : String := "SELECT quarter, revenue FROM sales"

def qW : String := "top revenue by quarter"

def rowsW : List Row :=
  [[("quarter", JsValue.str "Q1"), ("revenue", JsValue.num 150000)],
   [("quarter", JsValue.str "Q2"), ("revenue", JsValue.num 175000)]]

def storeW : Store := ⟨[(goodSql, Except.ok rowsW)], 0⟩

def storeE : Store := ⟨[(goodSql, Except.ok [])], 0⟩

def insW : Insight := ⟨"Revenue grew.", ["Q2 tops"], "detail", ["act"]⟩

/-- Deterministic stub whose SQL generation always returns the good
query. -/
def stubW : ModelStub :=
  ⟨Except.ok ⟨"wants revenue", "aggregate", []⟩,
   fun _ => Except.error (ModelFailure.provider ProviderErrorKind.timeout),
   fun _ => Except.ok goodSql,
   Except.error (ModelFailure.provider ProviderErrorKind.timeout),
   fun _ => Except.ok insW⟩

/-- Stub on which every provider call fails. -/
def stubF : ModelStub :=
  ⟨Except.error (ModelFailure.provider ProviderErrorKind.unavailable),
   fun _ => Except.error (ModelFailure.provider ProviderErrorKind.unavailable),
   fun _ => Except.error (ModelFailure.provider ProviderErrorKind.unavailable),
   Except.error (ModelFailure.provider ProviderErrorKind.unavailable),
   fun _ => Except.error (ModelFailure.provider ProviderErrorKind.unavailable)⟩

def emptyIssue : ValidationIssue := ⟨"empty", "empty SQL output"⟩

/-- History left by three failed generation attempts of stubF. -/
def histF : List CandidateQuery :=
  [⟨"", 1, [emptyIssue], none⟩, ⟨"", 2, [emptyIssue], none⟩,
   ⟨"", 3, [emptyIssue], none⟩]

/-- Accepted candidate of the zero-row scenario. -/
def candE : CandidateQuery := ⟨goodSql, 1, [], some (Except.ok [])⟩

/-! ### Witnesses -/

/-- Concrete instance of the C2 theorem: with the default
configuration and an always-failing stub, the stage exhausts after
exactly 3 candidates, within the bound. -/
theorem sqlStage_attempts_bounded_witness :
    attemptsUsed (sqlStage defaultConfig stubF ctxW storeW).1 ≤
      defaultConfig.maxAttempts ∧
    histF.length = defaultConfig.maxAttempts := by
  have h := sqlStage_attempts_bounded defaultConfig stubF ctxW storeW
  exact ⟨h.1, h.2.1 histF rfl⟩

/-- Concrete instance of the C3 theorem: a run that selects a chart
has a non-empty successful result set. -/
theorem vizOnlyOnRows_witness :
    ∃ rows : List Row, rows ≠ [] ∧
      (runPipeline defaultConfig stubW qW ctxW storeW).result_data = some rows ∧
      (runPipeline defaultConfig stubW qW ctxW storeW).status = RunStatus.success ∧
      (runPipeline defaultConfig stubW qW ctxW storeW).generated_sql.isSome = true :=
  (vizOnlyOnRows defaultConfig stubW qW ctxW storeW).1 (by decide)

/-- Concrete instance of the C4 theorem: a DROP statement is rejected
with a permission error and the store is untouched. -/
theorem execute_readOnly_witness :
    (execute 50 storeW "DROP TABLE sales").2 = storeW ∧
    (execute 50 storeW "DROP TABLE sales").2.accessCount = storeW.accessCount ∧
    ∃ e : ExecutionError, (execute 50 storeW "DROP TABLE sales").1 = Except.error e ∧
      e.kind = ExecErrorKind.permission :=
  execute_readOnly 50 storeW "DROP TABLE sales" (by decide)

/-- Concrete instance of the C5 theorem: with a failing planner the
plan defaults to the raw query and the run still completes. -/
theorem planningStage_default_witness :
    planningStage stubF qW = defaultPlan qW ∧
    (runPipeline defaultConfig stubF qW ctxW storeW).analysis_plan =
      some (defaultPlan qW) ∧
    (runPipeline defaultConfig stubF qW ctxW storeW).insights.isSome = true := by
  have h := planningStage_default stubF qW
    (ModelFailure.provider ProviderErrorKind.unavailable) rfl
  exact ⟨h.1, (h.2.2.2 defaultConfig ctxW storeW).1, (h.2.2.2 defaultConfig ctxW storeW).2⟩

/-- Concrete instance of the C6 theorem: the zero-row run succeeds
with the explicit no-matching-rows insight. -/
theorem emptyResult_success_witness :
    (runPipeline defaultConfig stubW qW ctxW storeE).status = RunStatus.success ∧
    (runPipeline defaultConfig stubW qW ctxW storeE).result_data = some [] ∧
    (runPipeline defaultConfig stubW qW ctxW storeE).visualization_specs = [] ∧
    (runPipeline defaultConfig stubW qW ctxW storeE).insights =
      some (insightStage stubW InsightSignal.noMatchingRows) ∧
    insightStage stubW InsightSignal.noMatchingRows = noRowsInsight ∧
    noRowsInsight.summary = "No matching rows were found." :=
  emptyResult_success defaultConfig stubW qW ctxW storeE candE rfl

/-- Concrete instance of the C7 theorem at identical concrete
inputs. -/
theorem runPipeline_idempotent_witness :
    (runPipeline defaultConfig stubW qW ctxW storeW).generated_sql =
      (runPipeline defaultConfig stubW qW ctxW storeW).generated_sql ∧
    (runPipeline defaultConfig stubW qW ctxW storeW).visualization_specs.map
        VizSpec.kind =
      (runPipeline defaultConfig stubW qW ctxW storeW).visualization_specs.map
        VizSpec.kind :=
  runPipeline_idempotent defaultConfig stubW stubW qW qW ctxW ctxW storeW storeW
    rfl rfl rfl rfl

end AIA
